import Mathlib

/-!
Verification of the Mailbox Ingestion & Subscription Extraction Pipeline of the
open-personal-finance repository.

The TypeScript sources are shallowly embedded: pure functions become Lean
functions, JavaScript numbers on the money/confidence paths become `ℚ`
(all arithmetic on these paths stays well inside the exactly-representable
range), JS strings become `String`, nullable fields become `Option`, and the
stateful runners become explicit state-passing functions.  Each definition
cites the source file and function it is translated from.
-/

set_option maxRecDepth 4096

namespace OPF

/-! ## String helpers (JS semantics) -/

/-- JS `String.prototype.includes`: substring containment. -/
def strContains (s pat : String) : Bool :=
  s.toList.tails.any fun suf => pat.toList.isPrefixOf suf

/-- Whitespace characters recognised by the JS regex class `\s`
(space, tab, LF, CR, vertical tab, form feed; char codes used to
stay purely numeric). -/
def isWsChar (c : Char) : Bool :=
  c.toNat = 32 || c.toNat = 9 || c.toNat = 10 || c.toNat = 13 || c.toNat = 11 || c.toNat = 12

/-- Greedily drop leading `\s` characters (matches `\s*` when the
continuation cannot start with whitespace, which holds for every pattern
in the sources). -/
def dropWs (l : List Char) : List Char :=
  l.dropWhile isWsChar

/-- Does `a` followed by `\s*` followed by `b` match at the head of `l`? -/
def spacedAt (a b : List Char) (l : List Char) : Bool :=
  a.isPrefixOf l && b.isPrefixOf (dropWs (l.drop a.length))

/-- JS regex test for the pattern `a\s*b` anywhere in `s`. -/
def spacedContains (s : String) (a b : String) : Bool :=
  s.toList.tails.any (spacedAt a.toList b.toList)

/-- JS `a || b` on strings: the empty string is falsy. -/
def jsOrStr (a b : String) : String :=
  if a = "" then b else a

/-- JS `String.prototype.toLowerCase` on the ASCII texts of interest:
character-wise `Char.toLower`, written by structural recursion (the
library's `String.toLower` maps the very same `Char.toLower` but recurses
on UTF-8 positions, which blocks kernel evaluation). -/
def asciiLower (s : String) : String :=
  ⟨s.toList.map Char.toLower⟩

/-! ## Keyword Classifier (`analyzeEmail`, src/unnamed/part_009 lines 15-139) -/

/-- Result record of the keyword classifier
(interface `ExtractedSubscription`, src/unnamed/part_009 lines 4-12). -/
structure ExtractedSubscription where
  isSubscription : Bool
  confidence : ℚ
  serviceName : Option String
  amount : Option ℚ
  currency : Option String
  billingCycle : Option String
  nextBillingDate : Option String
  deriving DecidableEq, Repr

/-- Subscription keywords (src/unnamed/part_009 lines 29-40). -/
def subscriptionKeywords : List String :=
  ["subscription", "recurring", "billing", "invoice", "payment", "renewal",
   "monthly charge", "annual charge", "auto-renewal", "membership"]

/-- Billing keywords (src/unnamed/part_009 lines 42-48). -/
def billingKeywords : List String :=
  ["charged", "payment processed", "receipt", "invoice", "billing statement"]

/-- Service name patterns (src/unnamed/part_009 lines 51-68); each JS regex is
rendered as a Boolean test on the already-lowercased combined text, with
`\s*` as `spacedContains`. -/
def servicePatterns : List (String × (String → Bool)) :=
  [("Netflix", fun t => strContains t "netflix"),
   ("Spotify", fun t => strContains t "spotify"),
   ("Amazon Prime", fun t => spacedContains t "amazon" "prime"),
   ("Disney+", fun t => strContains t "disney+"),
   ("HBO Max", fun t => spacedContains t "hbo" "max"),
   ("YouTube", fun t => spacedContains t "youtube" "premium" || spacedContains t "youtube" "music"),
   ("Hulu", fun t => strContains t "hulu"),
   ("Apple Music", fun t => spacedContains t "apple" "music"),
   ("iCloud", fun t => strContains t "icloud"),
   ("Dropbox", fun t => strContains t "dropbox"),
   ("GitHub", fun t => strContains t "github"),
   ("Slack", fun t => strContains t "slack"),
   ("Zoom", fun t => strContains t "zoom"),
   ("Adobe", fun t => strContains t "adobe"),
   ("Microsoft", fun t => spacedContains t "microsoft" "365" || spacedContains t "office" "365"),
   ("Google", fun t => spacedContains t "google" "one" || spacedContains t "google" "workspace")]

/-- Value of a digit run (used for the capture groups of the amount regexes). -/
def digitsToNat (ds : List Char) : Nat :=
  ds.foldl (fun n c => 10 * n + (c.toNat - 48)) 0

/-- Value contributed by a two-digit fractional part `.d₁d₂`. -/
def fracVal (d1 d2 : Char) : ℚ :=
  ((10 * (d1.toNat - 48) + (d2.toNat - 48) : Nat) : ℚ) / 100

/-- Parses of `\d+(?:\.\d{2})?` anchored at `l`, greedy alternative first;
each parse is the captured value (as `parseFloat` reads it) and the rest of
the input. -/
def numParsesAt (l : List Char) : List (ℚ × List Char) :=
  let p := l.span Char.isDigit
  if p.1.isEmpty then []
  else
    let base : ℚ := (digitsToNat p.1 : ℚ)
    match p.2 with
    | c :: d1 :: d2 :: rest2 =>
      if c.toNat = 46 && d1.isDigit && d2.isDigit then
        [(base + fracVal d1 d2, rest2), (base, c :: d1 :: d2 :: rest2)]
      else [(base, c :: d1 :: d2 :: rest2)]
    | rest => [(base, rest)]

/-- Match of `\$(\d+(?:\.\d{2})?)` anchored at `l` (char code 36 = dollar). -/
def dollarAmountAt (l : List Char) : Option ℚ :=
  match l with
  | c :: rest => if c.toNat = 36 then ((numParsesAt rest).head?).map Prod.fst else none
  | [] => none

/-- Match of `USD\s*(\d+(?:\.\d{2})?)` anchored at `l`. -/
def usdPrefixAmountAt (l : List Char) : Option ℚ :=
  if ("USD".toList).isPrefixOf l then
    ((numParsesAt (dropWs (l.drop 3))).head?).map Prod.fst
  else none

/-- Match of `(\d+(?:\.\d{2})?)\s*USD` anchored at `l`; the greedy fractional
alternative is tried first, mirroring regex backtracking. -/
def usdSuffixAmountAt (l : List Char) : Option ℚ :=
  (numParsesAt l).findSome? fun p =>
    if ("USD".toList).isPrefixOf (dropWs p.2) then some p.1 else none

/-- Leftmost match of an anchored matcher inside `text`. -/
def findAmount (f : List Char → Option ℚ) (text : String) : Option ℚ :=
  text.toList.tails.findSome? f

/-- Amount extraction (src/unnamed/part_009 lines 100-114): the three USD
amount regexes are tried in order against the body text; the first matching
pattern yields the captured amount. -/
def extractAmount (text : String) : Option ℚ :=
  match findAmount dollarAmountAt text with
  | some a => some a
  | none =>
    match findAmount usdPrefixAmountAt text with
    | some a => some a
    | none => findAmount usdSuffixAmountAt text

/-- JS regex `/annual|yearly|per\s*year/i` on the lowercased combined text
(src/unnamed/part_009 line 118). -/
def yearlyMatches (t : String) : Bool :=
  strContains t "annual" || strContains t "yearly" || spacedContains t "per" "year"

/-- JS regex `/weekly|per\s*week/i` on the lowercased combined text
(src/unnamed/part_009 line 120). -/
def weeklyMatches (t : String) : Bool :=
  strContains t "weekly" || spacedContains t "per" "week"

/-- Body text used by the keyword classifier:
`email.body_text || email.body_html || ""` (src/unnamed/part_009 line 24). -/
def keywordText (body_text body_html : String) : String :=
  jsOrStr body_text (jsOrStr body_html "")

/-- Combined text (src/unnamed/part_009 line 71):
`` `${subject} ${text} ${sender}`.toLowerCase() ``. -/
def combinedText (subject sender_email body_text body_html : String) : String :=
  asciiLower (subject ++ " " ++ keywordText body_text body_html ++ " " ++ sender_email)

/-- The keyword classifier `analyzeEmail` (src/unnamed/part_009 lines 15-139),
translated statement by statement: two keyword loops accumulating 0.15 / 0.10
per hit, +0.30 for the first matching service pattern, +0.20 for the first
matching amount pattern, billing-cycle detection, `min(confidence, 1)`, and
the final `confidence > 0.4` test. -/
def analyzeEmail (subject sender_email body_text body_html : String) : ExtractedSubscription :=
  let text := keywordText body_text body_html
  let combined := combinedText subject sender_email body_text body_html
  let conf1 : ℚ :=
    subscriptionKeywords.foldl (fun c k => if strContains combined k then c + 15 / 100 else c) 0
  let conf2 : ℚ :=
    billingKeywords.foldl (fun c k => if strContains combined k then c + 10 / 100 else c) conf1
  let serviceHit := servicePatterns.find? fun p => p.2 combined
  let conf3 : ℚ := if serviceHit.isSome then conf2 + 3 / 10 else conf2
  let amount := extractAmount text
  let conf4 : ℚ := if amount.isSome then conf3 + 2 / 10 else conf3
  let cycle : String :=
    if yearlyMatches combined then "yearly"
    else if weeklyMatches combined then "weekly"
    else "monthly"
  let confidence : ℚ := min conf4 1
  { isSubscription := decide (confidence > 4 / 10)
    confidence := confidence
    serviceName := serviceHit.map Prod.fst
    amount := amount
    currency := some "USD"
    billingCycle := some cycle
    nextBillingDate := none }

/-! ## LM Classifier (`claudeService`, src/backend/src/services/claudeService.ts) -/

/-- Result record of the LM classifier
(interface `EmailAnalysisResult`, claudeService.ts lines 24-37); the token
usage record is flattened into two fields. -/
structure EmailAnalysisResult where
  is_subscription : Bool
  confidence : ℚ
  service_name : Option String
  amount : Option ℚ
  currency : Option String
  billing_cycle : Option String
  next_billing_date : Option String
  reasoning : String
  tokens_input : Nat
  tokens_output : Nat
  deriving DecidableEq, Repr

/-- JS `Math.round` for the non-negative values arising here:
half-up rounding. -/
def jsRound (x : ℚ) : ℤ :=
  Int.floor (x + 1 / 2)

/-- `calculateCost` (claudeService.ts lines 404-411): per-token Haiku pricing
`HAIKU_INPUT_COST_PER_1M = 0.25`, `HAIKU_OUTPUT_COST_PER_1M = 1.25`
(src/unnamed/part_005 lines 92-97), rounded to 6 decimal places. -/
def round6 (x : ℚ) : ℚ :=
  (jsRound (x * 1000000) : ℚ) / 1000000

/-- `calculateCost` translated statement by statement. -/
def calculateCost (inputTokens outputTokens : Nat) : ℚ :=
  let inputCost := (inputTokens : ℚ) / 1000000 * (25 / 100)
  let outputCost := (outputTokens : ℚ) / 1000000 * (125 / 100)
  let totalCost := inputCost + outputCost
  round6 totalCost

/-- Backoff schedule of `callClaudeAPIWithRetries`
(claudeService.ts line 206: `const delays = [10000, 30000, 90000]`). -/
def claudeRetryDelays : List Nat :=
  [10000, 30000, 90000]

/-- Observable trace of one `callClaudeAPIWithRetries` run: the final result
(`Except.error` models the function throwing), the number of times
`callClaudeAPI` was invoked, and the sleeps performed in order. -/
structure RetryTrace where
  result : Except String Nat
  apiCalls : Nat
  sleeps : List Nat
  deriving Repr

/-- Loop body of `callClaudeAPIWithRetries` (claudeService.ts lines 184-221),
translated control-flow branch by branch.  `outcomes n` is what the `n`-th
invocation of `callClaudeAPI` does (succeed with an opaque response, or throw
with a message).  Note the source's catch block: after the `401` rethrow and
the retriable-sleep `continue`, the remaining cases only log
(`console.error`) and fall through to the next loop iteration. -/
def retryGo (outcomes : Nat → Except String Nat) (maxRetries : Nat) :
    Nat → Nat → Option String → List Nat → RetryTrace
  | 0, attempt, lastError, sleeps =>
    { result := Except.error (lastError.getD "Claude API call failed after retries")
      apiCalls := attempt - 1
      sleeps := sleeps }
  | fuel + 1, attempt, _, sleeps =>
    match outcomes attempt with
    | Except.ok r => { result := Except.ok r, apiCalls := attempt, sleeps := sleeps }
    | Except.error e =>
      if strContains e "401" then
        { result := Except.error e, apiCalls := attempt, sleeps := sleeps }
      else if attempt < maxRetries ∧
          (strContains e "429" ∨ strContains e "500" ∨ strContains e "503") then
        retryGo outcomes maxRetries fuel (attempt + 1) (some e)
          (sleeps ++ [claudeRetryDelays.getD (attempt - 1) 10000])
      else
        retryGo outcomes maxRetries fuel (attempt + 1) (some e) sleeps

/-- `callClaudeAPIWithRetries(prompt, maxRetries = 3)`. -/
def callClaudeAPIWithRetries (outcomes : Nat → Except String Nat) : RetryTrace :=
  retryGo outcomes 3 3 1 none []

/-- The dynamic JSON value after `JSON.parse` (or repair) and
`validateAnalysisResult` have accepted it (claudeService.ts lines 349-392):
field types are as validated, nullable fields are `Option`. -/
structure ParsedClaude where
  is_subscription : Bool
  confidence : ℚ
  service_name : Option String
  amount : Option ℚ
  currency : Option String
  billing_cycle : Option String
  next_billing_date : Option String
  reasoning : String
  deriving DecidableEq, Repr

/-- Anchored test of the `validateAnalysisResult` date regex
`/^\d{4}-\d{2}-\d{2}$/` (char code 45 = hyphen). -/
def isDateFormat (s : String) : Bool :=
  match s.toList with
  | [a, b, c, d, h1, e, f, h2, g, i] =>
    a.isDigit && b.isDigit && c.isDigit && d.isDigit && h1.toNat = 45 &&
    e.isDigit && f.isDigit && h2.toNat = 45 && g.isDigit && i.isDigit
  | _ => false

/-- The value checks of `validateAnalysisResult` that are not already
enforced by the `ParsedClaude` field types: `confidence` in `[0, 1]` and the
`YYYY-MM-DD` shape of a non-null `next_billing_date`. -/
def validateAnalysisResult (p : ParsedClaude) : Bool :=
  decide (0 ≤ p.confidence) && decide (p.confidence ≤ 1) &&
    (match p.next_billing_date with
     | none => true
     | some d => isDateFormat d)

/-- JS `x || null` on a nullable string: `""` is falsy and becomes null. -/
def jsOrNullStr (o : Option String) : Option String :=
  match o with
  | none => none
  | some s => if s = "" then none else some s

/-- JS `x || null` on a nullable number: `0` is falsy and becomes null. -/
def jsOrNullNum (o : Option ℚ) : Option ℚ :=
  match o with
  | none => none
  | some q => if q = 0 then none else some q

/-- Field assembly of `parseClaudeResponse` (claudeService.ts lines 314-324):
every optional field goes through `||`-coercion, `reasoning` falls back to a
default when falsy. -/
def parseClaudeFields (p : ParsedClaude) (usageInput usageOutput : Nat) : EmailAnalysisResult :=
  { is_subscription := p.is_subscription
    confidence := p.confidence
    service_name := jsOrNullStr p.service_name
    amount := jsOrNullNum p.amount
    currency := jsOrNullStr p.currency
    billing_cycle := jsOrNullStr p.billing_cycle
    next_billing_date := jsOrNullStr p.next_billing_date
    reasoning := if p.reasoning = "" then "No reasoning provided" else p.reasoning
    tokens_input := usageInput
    tokens_output := usageOutput }

/-! ## Process Runner (`emailProcessor`, src/backend/src/services/emailProcessor.ts) -/

/-- Candidate-subscription fields attached to a processed row (the
`extractedData` object literals of `analyzeEmailHybrid`,
emailProcessor.ts lines 308-315 / 328-334 / 361-367 / 379-385). -/
structure ExtractedData where
  serviceName : Option String
  amount : Option ℚ
  currency : Option String
  billingCycle : Option String
  nextBillingDate : Option String
  deriving DecidableEq, Repr

/-- Row-analysis outcome (interface `AnalysisResult`, emailProcessor.ts
lines 31-38).  `extractedData` is `none` exactly where the source passes
`null` (the give-up branch of the failure handler). -/
structure AnalysisResult where
  isSubscription : Bool
  confidence : ℚ
  extractedData : Option ExtractedData
  provider : String
  reasoning : String
  cost : ℚ
  deriving DecidableEq, Repr

/-- Persisted mail row (interface `Email`, emailProcessor.ts lines 20-29,
plus the columns written back by the processor; `processedAt` models whether
`processed_at` is non-null). -/
structure EmailRow where
  subject : String
  sender_email : String
  body_text : Option String
  body_html : Option String
  analysis_attempts : Nat
  processedAt : Bool
  is_subscription : Bool
  subscription_confidence : ℚ
  extracted_data : Option (Option ExtractedData)
  ai_provider : Option String
  ai_reasoning : Option String
  deriving DecidableEq, Repr

/-- The `extractedData` object built from a keyword result
(emailProcessor.ts lines 308-315 and the two fallback branches). -/
def extractedOfKeyword (k : ExtractedSubscription) : ExtractedData :=
  { serviceName := k.serviceName
    amount := k.amount
    currency := k.currency
    billingCycle := k.billingCycle
    nextBillingDate := k.nextBillingDate }

/-- The `extractedData` object built from a Claude result
(emailProcessor.ts lines 361-367). -/
def extractedOfClaude (c : EmailAnalysisResult) : ExtractedData :=
  { serviceName := c.service_name
    amount := c.amount
    currency := c.currency
    billingCycle := c.billing_cycle
    nextBillingDate := c.next_billing_date }

/-- Keyword stage of the hybrid classifier as invoked by
`analyzeEmailHybrid` (emailProcessor.ts lines 296-302): every field is
passed through `|| ""`. -/
def keywordResultOf (e : EmailRow) : ExtractedSubscription :=
  analyzeEmail e.subject e.sender_email (e.body_text.getD "") (e.body_html.getD "")

/-- `KEYWORD_CONFIDENCE_THRESHOLD = 0.3` (src/unnamed/part_005 line 65). -/
def KEYWORD_CONFIDENCE_THRESHOLD : ℚ := 3 / 10

/-- `analyzeEmailHybrid` (emailProcessor.ts lines 294-391), translated branch
by branch.  `aiEnabled` is the `AI_ENABLED` flag (src/unnamed/part_005
line 19: the API key is configured), and `claudeOutcome` is what the
`analyzeEmailWithClaude` call would do if invoked (return a parsed result or
throw).  The second component records whether the Claude API was invoked,
true in both the success and the caught-failure branch. -/
def analyzeEmailHybrid (e : EmailRow) (aiEnabled : Bool)
    (claudeOutcome : Except String EmailAnalysisResult) : AnalysisResult × Bool :=
  let keywordResult := keywordResultOf e
  if keywordResult.confidence < KEYWORD_CONFIDENCE_THRESHOLD then
    ({ isSubscription := false
       confidence := keywordResult.confidence
       extractedData := some (extractedOfKeyword keywordResult)
       provider := "keywords"
       reasoning := "Low keyword confidence - rejected without AI analysis"
       cost := 0 }, false)
  else if ¬aiEnabled then
    ({ isSubscription := keywordResult.isSubscription
       confidence := keywordResult.confidence
       extractedData := some (extractedOfKeyword keywordResult)
       provider := "keywords_fallback"
       reasoning := "Claude API not available - using keyword analysis"
       cost := 0 }, false)
  else
    match claudeOutcome with
    | Except.ok claudeResult =>
      ({ isSubscription := claudeResult.is_subscription
         confidence := claudeResult.confidence
         extractedData := some (extractedOfClaude claudeResult)
         provider := "claude"
         reasoning := claudeResult.reasoning
         cost := calculateCost claudeResult.tokens_input claudeResult.tokens_output }, true)
    | Except.error msg =>
      ({ isSubscription := keywordResult.isSubscription
         confidence := keywordResult.confidence
         extractedData := some (extractedOfKeyword keywordResult)
         provider := "keywords_fallback"
         reasoning := "Claude API failed: " ++ msg ++ ". Using keyword analysis."
         cost := 0 }, true)

/-- `markEmailAsProcessed` (emailProcessor.ts lines 400-419): stamps
`processed_at` and writes the five result columns; `analysis_attempts` is
not touched. -/
def markEmailAsProcessed (e : EmailRow) (r : AnalysisResult) : EmailRow :=
  { e with
    processedAt := true
    is_subscription := r.isSubscription
    subscription_confidence := r.confidence
    extracted_data := some r.extractedData
    ai_provider := some r.provider
    ai_reasoning := some r.reasoning }

/-- Account-side cost update for one processed row
(emailProcessor.ts lines 230-235): `ai_cost_total` is increased by
`result.cost`, under the guard `result.cost > 0`; no other statement in the
repository writes `ai_cost_total`. -/
def accountCostAfterRow (aiCostTotal : ℚ) (r : AnalysisResult) : ℚ :=
  if r.cost > 0 then aiCostTotal + r.cost else aiCostTotal

/-- Per-row exception handler of `processEmailBatch`
(emailProcessor.ts lines 246-271): increment the attempt counter; at 3 or
more, give the row up via `markEmailAsProcessed` with the error provider;
below 3, persist only the incremented counter and leave the row
unprocessed. -/
def handleRowFailure (e : EmailRow) (errMsg : String) : EmailRow :=
  let attempts := e.analysis_attempts + 1
  if 3 ≤ attempts then
    markEmailAsProcessed e
      { isSubscription := false
        confidence := 0
        extractedData := none
        provider := "error"
        reasoning := "Failed after " ++ toString attempts ++ " attempts: " ++ errMsg
        cost := 0 }
  else
    { e with analysis_attempts := attempts }

/-! ## Subscription store

The deployed `subscriptions` table carries a unique index on
`(user_id, service_name, amount)`: the bootstrap schema shipped in the
sources (src/unnamed/part_000) predates it, and the migration that adds it
is not among the sources, but `createSubscriptionFromEmail`
(emailProcessor.ts line 464) names it in `ON CONFLICT (user_id,
service_name, amount) DO NOTHING`.  The store below is therefore modelled
from the spec: Subscription uniqueness is `(user, service_name, amount)`
and conflicting inserts are silently suppressed. -/

/-- Subscription row, with the columns written by
`createSubscriptionFromEmail` (emailProcessor.ts lines 450-476). -/
structure SubscriptionRow where
  user_id : String
  email_id : Option String
  service_name : String
  amount : ℚ
  currency : String
  billing_cycle : String
  next_billing_date : Option String
  status : String
  confidence_score : ℚ
  user_verified : Bool
  deriving DecidableEq, Repr

/-- Key equality used by the unique index. -/
def sameSubsKey (s : SubscriptionRow) (u n : String) (a : ℚ) : Bool :=
  decide (s.user_id = u ∧ s.service_name = n ∧ s.amount = a)

/-- Modelled from the spec: `INSERT ... ON CONFLICT (user_id, service_name,
amount) DO NOTHING RETURNING id` against the unique index that the deployed
schema carries (the migration file is not among the sources).  Returns the
new table and the returned id, `none` when the insert was suppressed. -/
def insertSubscription (db : List SubscriptionRow) (row : SubscriptionRow) :
    List SubscriptionRow × Option Nat :=
  if db.any fun s => sameSubsKey s row.user_id row.service_name row.amount then
    (db, none)
  else
    (db ++ [row], some db.length)

/-- `createSubscriptionFromEmail` (emailProcessor.ts lines 425-493): the JS
falsy guard `!extractedData.serviceName || !extractedData.amount` drops
null, empty-string and zero values; otherwise the row is inserted with
`||`-defaulted currency and billing cycle, status `active`, confidence 0.9
and `user_verified = false`. -/
def createSubscriptionFromEmail (db : List SubscriptionRow) (userId emailId : String)
    (ex : ExtractedData) : List SubscriptionRow × Option Nat :=
  match ex.serviceName, ex.amount with
  | some n, some a =>
    if n = "" ∨ a = 0 then (db, none)
    else
      insertSubscription db
        { user_id := userId
          email_id := some emailId
          service_name := n
          amount := a
          currency := (jsOrNullStr ex.currency).getD "USD"
          billing_cycle := (jsOrNullStr ex.billingCycle).getD "monthly"
          next_billing_date := jsOrNullStr ex.nextBillingDate
          status := "active"
          confidence_score := 9 / 10
          user_verified := false }
  | _, _ => (db, none)

/-- Contribution of one row to the batch's `subscriptionsFound` counter
(emailProcessor.ts lines 238-243): incremented exactly when
`createSubscriptionFromEmail` returned an id. -/
def subsFoundIncrement (insertResult : Option Nat) : Nat :=
  if insertResult.isSome then 1 else 0

/-! ## Sync Runner (`syncGmailAccount`, src/unnamed/part_006 lines 339-579)

The runner relies on `getResumeStatus`, `clearResumeData` and the extended
`updateGmailAccountSyncStatus` from `oauthService`; the sources only carry
an older `oauthService` without resume support, so those three helpers are
modelled from the spec below. -/

/-- Resume-relevant slice of a `gmail_accounts` row. -/
structure SyncAccountState where
  sync_status : String
  last_page_token : String
  last_processed_message_id : String
  query_hash : String
  processed_emails : Nat
  total_emails : Nat
  deriving DecidableEq, Repr

/-- Return record of `getResumeStatus`. -/
structure ResumeStatus where
  canResume : Bool
  resumeToken : String
  processedCount : Nat
  totalCount : Nat
  queryHash : String
  deriving DecidableEq, Repr

/-- Modelled from the spec: `getResumeStatus` (imported from the missing
`oauthService`).  Spec §4.4 step 1 and invariant §3: sync resume is offered
iff `sync_status = syncing` and `last_page_token ≠ ""`; staleness is
log-only and does not block resume. -/
def getResumeStatus (st : SyncAccountState) : ResumeStatus :=
  { canResume := decide (st.sync_status = "syncing" ∧ st.last_page_token ≠ "")
    resumeToken := st.last_page_token
    processedCount := st.processed_emails
    totalCount := st.total_emails
    queryHash := st.query_hash }

/-- Modelled from the spec: `clearResumeData` (imported from the missing
`oauthService`) clears the resume cursor, which the spec glossary defines as
the triple `(last_page_token, last_processed_message_id, query_hash)`
together with nothing else. -/
def clearResumeData (st : SyncAccountState) : SyncAccountState :=
  { st with last_page_token := "", last_processed_message_id := "", query_hash := "" }

/-- Modelled from the spec: the initialisation write of the Sync Runner
(spec §4.4 step 2, realised by `updateGmailAccountSyncStatus(accountId,
"syncing", undefined, 0, "", "", new Date(), currentQueryHash)` in
src/unnamed/part_006 lines 399-408): status `syncing`, `processed_emails`
zeroed, empty page cursor, the new query hash stored. -/
def initializeSyncState (st : SyncAccountState) (currentHash : String) : SyncAccountState :=
  { st with
    sync_status := "syncing"
    processed_emails := 0
    last_page_token := ""
    last_processed_message_id := ""
    query_hash := currentHash }

/-- Outcome of Phase 0 of `syncGmailAccount`: the account state after the
resume decision, the resume flags, and whether the counting phase is
skipped. -/
structure SyncDecision where
  state : SyncAccountState
  isResuming : Bool
  startingPageToken : Option String
  startingProcessedCount : Nat
  skipCounting : Bool
  deriving DecidableEq, Repr

/-- Phase 0 of `syncGmailAccount` (src/unnamed/part_006 lines 349-437),
translated branch by branch: on a live resume state with a query-hash
mismatch, `clearResumeData` runs and the run falls through to
initialisation and counting; on a hash match, the run resumes from the
stored cursor with `skipCounting = true`; without a live resume state the
run initialises and counts. -/
def syncResumeDecision (st : SyncAccountState) (currentQueryHash : String) : SyncDecision :=
  let resumeStatus := getResumeStatus st
  if resumeStatus.canResume then
    if resumeStatus.queryHash ≠ currentQueryHash then
      { state := initializeSyncState (clearResumeData st) currentQueryHash
        isResuming := false
        startingPageToken := none
        startingProcessedCount := 0
        skipCounting := false }
    else
      { state := st
        isResuming := true
        startingPageToken := some resumeStatus.resumeToken
        startingProcessedCount := resumeStatus.processedCount
        skipCounting := true }
  else
    { state := initializeSyncState st currentQueryHash
      isResuming := false
      startingPageToken := none
      startingProcessedCount := 0
      skipCounting := false }

/-- Outcome of the catch block of `syncGmailAccount`: the user-visible
message stored in `last_error`, the `shouldPreserveResume` flag, and whether
`clearResumeData` was executed. -/
structure SyncErrorHandling where
  errorMessage : String
  shouldPreserveResume : Bool
  clearsResume : Bool
  deriving DecidableEq, Repr

/-- Error classification of `syncGmailAccount` (src/unnamed/part_006 lines
537-558), translated branch by branch; the classification reads only the
thrown error's message text. -/
def classifySyncError (msg : String) : SyncErrorHandling :=
  if strContains msg "401" ∨ strContains msg "403" then
    { errorMessage := "Gmail access expired. Please reconnect your account."
      shouldPreserveResume := false
      clearsResume := true }
  else if strContains msg "429" ∨ strContains msg "quota" then
    { errorMessage := "Gmail rate limit reached. Please retry in 1 hour."
      shouldPreserveResume := true
      clearsResume := false }
  else if strContains msg "fetch" ∨ strContains msg "network" ∨ strContains msg "timeout" then
    { errorMessage := "Network error occurred. Click \x27Sync Now\x27 to retry."
      shouldPreserveResume := true
      clearsResume := false }
  else
    { errorMessage := "Unexpected error occurred. Please retry or contact support."
      shouldPreserveResume := true
      clearsResume := false }

/-- Message of the error thrown by `refreshAccessToken` when the token
endpoint refuses the refresh grant (src/unnamed/part_006 line 143:
`throw new AppError("Failed to refresh access token", 401)`; `AppError` is a
plain `Error` subclass whose message is its first argument, the 401 lives
only in the separate `statusCode` field). -/
def refreshFailureMessage : String :=
  "Failed to refresh access token"

/-! ## Spec-side statements and concrete inputs -/

/-- Number of subscription keywords that hit the combined text. -/
def subKeywordHits (combined : String) : Nat :=
  subscriptionKeywords.countP fun k => strContains combined k

/-- Number of billing keywords that hit the combined text. -/
def billKeywordHits (combined : String) : Nat :=
  billingKeywords.countP fun k => strContains combined k

/-- Stated from the spec (§4.5) for comparison with `analyzeEmail`: the
confidence is `min(1, 0.15·subscription hits + 0.10·billing hits + 0.30 if
some service pattern matches + 0.20 if some amount pattern matches)`. -/
def specKeywordConfidence (subject sender_email body_text body_html : String) : ℚ :=
  let text := keywordText body_text body_html
  let combined := combinedText subject sender_email body_text body_html
  min 1 ((15 / 100) * subKeywordHits combined + (10 / 100) * billKeywordHits combined
    + (if servicePatterns.any (fun p => p.2 combined) then 3 / 10 else 0)
    + (if (extractAmount text).isSome then 2 / 10 else 0))

/-- Pairwise distinctness of the subscription unique key, stated from the
spec (§3): no two rows share `(user, service_name, amount)`. -/
def subsKeyDistinct (s t : SubscriptionRow) : Prop :=
  ¬(s.user_id = t.user_id ∧ s.service_name = t.service_name ∧ s.amount = t.amount)

/-- Mail row on which the keyword classifier scores 0. -/
def rowLowConfidence : EmailRow :=
  { subject := "hello"
    sender_email := ""
    body_text := none
    body_html := none
    analysis_attempts := 0
    processedAt := false
    is_subscription := false
    subscription_confidence := 0
    extracted_data := none
    ai_provider := none
    ai_reasoning := none }

/-- Mail row on which the keyword classifier scores exactly 0.3
(subscription keywords `subscription` and `billing` both hit). -/
def rowMidConfidence : EmailRow :=
  { rowLowConfidence with subject := "subscription billing" }

/-- Mail row that has already failed twice. -/
def rowTwoFailures : EmailRow :=
  { rowLowConfidence with analysis_attempts := 2 }

/-- A successful Claude response with token usage (1000, 200). -/
def claudeOkResult : EmailAnalysisResult :=
  { is_subscription := true
    confidence := 98 / 100
    service_name := some "Netflix"
    amount := some (1599 / 100)
    currency := some "USD"
    billing_cycle := some "monthly"
    next_billing_date := none
    reasoning := "Recurring streaming charge."
    tokens_input := 1000
    tokens_output := 200 }

/-- Attempt schedule whose first API call throws the (non-retriable) timeout
error and whose second call succeeds. -/
def timeoutThenOk : Nat → Except String Nat :=
  fun n => if n = 1 then Except.error "Claude API request timeout" else Except.ok 0

/-- A validated Claude answer whose `amount` field is the number 0. -/
def parsedZeroAmount : ParsedClaude :=
  { is_subscription := true
    confidence := 9 / 10
    service_name := some "Netflix"
    amount := some 0
    currency := some "USD"
    billing_cycle := some "monthly"
    next_billing_date := none
    reasoning := "Zero-amount answer." }

/-- A one-row subscription table. -/
def subsDbOne : List SubscriptionRow :=
  [{ user_id := "u1"
     email_id := some "e1"
     service_name := "Netflix"
     amount := 1599 / 100
     currency := "USD"
     billing_cycle := "monthly"
     next_billing_date := none
     status := "active"
     confidence_score := 9 / 10
     user_verified := false }]

/-- Extracted data carrying the same key as the row of `subsDbOne`. -/
def extractedConflicting : ExtractedData :=
  { serviceName := some "Netflix"
    amount := some (1599 / 100)
    currency := some "USD"
    billingCycle := some "monthly"
    nextBillingDate := none }

/-- Account mid-sync with a live resume cursor. -/
def liveSyncState : SyncAccountState :=
  { sync_status := "syncing"
    last_page_token := "tok42"
    last_processed_message_id := "m9"
    query_hash := "abc123deadbeef00"
    processed_emails := 120
    total_emails := 250 }

/-! ## Helper lemmas -/

/-- A fold that adds `w` for every predicate hit computes `w` times the hit
count. -/
theorem foldl_if_add (w : ℚ) (p : String → Bool) (l : List String) :
    ∀ c : ℚ, l.foldl (fun acc k => if p k then acc + w else acc) c = c + w * l.countP p := by
  induction l with
  | nil => intro c; simp
  | cons h t ih =>
    intro c
    by_cases hp : p h
    · simp only [List.foldl_cons, List.countP_cons, hp, if_true, ih]
      push_cast
      ring
    · simp [hp, ih, List.countP_cons]

/-- `find?` succeeds exactly when some element satisfies the predicate. -/
theorem find?_isSome_eq_any {α : Type} (p : α → Bool) (l : List α) :
    (l.find? p).isSome = l.any p := by
  induction l with
  | nil => rfl
  | cons h t ih => by_cases hp : p h <;> simp [List.find?_cons, hp, ih]

/-- Adding inside a conditional equals adding the conditional weight. -/
theorem ite_add_shift (c : Prop) [Decidable c] (x v : ℚ) :
    (if c then x + v else x) = x + (if c then v else 0) := by
  split <;> ring

/-! ## C7 — Keyword Classifier -/

/-- C7: for every mail row the keyword classifier is a pure function whose
confidence equals `min(1, 0.15·subscription-keyword hits + 0.10·billing
hits + 0.30 if a service pattern matches + 0.20 if an amount pattern
matches)`, with `is_subscription = (confidence > 0.4)`, currency `USD`,
`service_name` set iff a service pattern matches, `amount` set iff an
amount pattern matches, and the yearly/weekly/monthly billing-cycle rule. -/
theorem keyword_classifier_formula (subject sender_email body_text body_html : String) :
    (analyzeEmail subject sender_email body_text body_html).confidence
      = specKeywordConfidence subject sender_email body_text body_html
    ∧ (analyzeEmail subject sender_email body_text body_html).isSubscription
      = decide (4 / 10 < (analyzeEmail subject sender_email body_text body_html).confidence)
    ∧ (analyzeEmail subject sender_email body_text body_html).currency = some "USD"
    ∧ ((analyzeEmail subject sender_email body_text body_html).serviceName.isSome
      = servicePatterns.any fun p => p.2 (combinedText subject sender_email body_text body_html))
    ∧ ((analyzeEmail subject sender_email body_text body_html).amount.isSome
      = (extractAmount (keywordText body_text body_html)).isSome)
    ∧ (analyzeEmail subject sender_email body_text body_html).billingCycle
      = some (if yearlyMatches (combinedText subject sender_email body_text body_html) then "yearly"
          else if weeklyMatches (combinedText subject sender_email body_text body_html) then "weekly"
          else "monthly")
    := by
  refine ⟨?_, rfl, rfl, ?_, rfl, rfl⟩
  · show min _ 1 = specKeywordConfidence subject sender_email body_text body_html
    rw [min_comm]
    unfold specKeywordConfidence
    congr 1
    rw [foldl_if_add, foldl_if_add, find?_isSome_eq_any, subKeywordHits, billKeywordHits]
    rw [ite_add_shift, ite_add_shift]
    ring
  · show ((servicePatterns.find? _).map Prod.fst).isSome = _
    rw [← find?_isSome_eq_any]
    cases servicePatterns.find? fun p => p.2 (combinedText subject sender_email body_text body_html) <;> rfl

/-! ## C2 — Classifier gating -/

/-- C2: for every mail row whose keyword confidence is strictly below the
0.3 threshold, the Claude API is not invoked, and the row is written with
`ai_provider = keywords` and cost 0 (so the account cost is unchanged). -/
theorem classifier_gating (e : EmailRow) (aiEnabled : Bool)
    (claudeOutcome : Except String EmailAnalysisResult) (t : ℚ)
    (h : (keywordResultOf e).confidence < KEYWORD_CONFIDENCE_THRESHOLD) :
    (analyzeEmailHybrid e aiEnabled claudeOutcome).2 = false
    ∧ (analyzeEmailHybrid e aiEnabled claudeOutcome).1.provider = "keywords"
    ∧ (analyzeEmailHybrid e aiEnabled claudeOutcome).1.cost = 0
    ∧ (markEmailAsProcessed e (analyzeEmailHybrid e aiEnabled claudeOutcome).1).ai_provider
      = some "keywords"
    ∧ accountCostAfterRow t (analyzeEmailHybrid e aiEnabled claudeOutcome).1 = t := by
  simp [analyzeEmailHybrid, h, markEmailAsProcessed, accountCostAfterRow]

unseal Rat.add Rat.mul Rat.inv in
/-- Witness for C2 at a concrete zero-confidence row. -/
theorem classifier_gating_witness :
    (analyzeEmailHybrid rowLowConfidence true (Except.ok claudeOkResult)).2 = false
    ∧ (analyzeEmailHybrid rowLowConfidence true (Except.ok claudeOkResult)).1.provider
      = "keywords" := by
  have h := classifier_gating rowLowConfidence true (Except.ok claudeOkResult) 0 (by decide)
  exact ⟨h.1, h.2.1⟩

/-! ## C9 — Fallback to keywords -/

/-- C9: for every mail row at or above the keyword threshold, if the LM is
disabled or the LM call fails, the hybrid classifier returns the keyword
result with `ai_provider = keywords_fallback` and cost 0 (and returns
normally rather than throwing). -/
theorem keyword_fallback (e : EmailRow) (aiEnabled : Bool)
    (claudeOutcome : Except String EmailAnalysisResult)
    (hconf : ¬(keywordResultOf e).confidence < KEYWORD_CONFIDENCE_THRESHOLD)
    (hfb : aiEnabled = false ∨ ∃ msg, claudeOutcome = Except.error msg) :
    (analyzeEmailHybrid e aiEnabled claudeOutcome).1.provider = "keywords_fallback"
    ∧ (analyzeEmailHybrid e aiEnabled claudeOutcome).1.cost = 0
    ∧ (analyzeEmailHybrid e aiEnabled claudeOutcome).1.isSubscription
      = (keywordResultOf e).isSubscription
    ∧ (analyzeEmailHybrid e aiEnabled claudeOutcome).1.confidence
      = (keywordResultOf e).confidence
    ∧ (analyzeEmailHybrid e aiEnabled claudeOutcome).1.extractedData
      = some (extractedOfKeyword (keywordResultOf e)) := by
  rcases hfb with hai | ⟨msg, hout⟩
  · subst hai
    simp [analyzeEmailHybrid, hconf]
  · subst hout
    cases aiEnabled <;> simp [analyzeEmailHybrid, hconf]

unseal Rat.add Rat.mul Rat.inv in
/-- Witness for C9 at a concrete row of keyword confidence 0.3 with the LM
disabled. -/
theorem keyword_fallback_witness :
    (analyzeEmailHybrid rowMidConfidence false (Except.ok claudeOkResult)).1.provider
      = "keywords_fallback"
    ∧ (analyzeEmailHybrid rowMidConfidence false (Except.ok claudeOkResult)).1.cost = 0 := by
  have h := keyword_fallback rowMidConfidence false (Except.ok claudeOkResult)
    (by decide) (Or.inl rfl)
  exact ⟨h.1, h.2.1⟩

/-! ## C3 — Cost accounting -/

/-- Rounding to six decimals preserves non-negativity. -/
theorem round6_nonneg (x : ℚ) (hx : 0 ≤ x) : 0 ≤ round6 x := by
  unfold round6 jsRound
  have h1 : (0 : ℤ) ≤ Int.floor (x * 1000000 + 1 / 2) := by
    rw [Int.le_floor]
    push_cast
    linarith
  positivity

/-- The LM cost is never negative. -/
theorem calculateCost_nonneg (i o : Nat) : 0 ≤ calculateCost i o := by
  unfold calculateCost
  apply round6_nonneg
  positivity

/-- Every hybrid analysis result carries a non-negative cost. -/
theorem hybrid_cost_nonneg (e : EmailRow) (aiEnabled : Bool)
    (claudeOutcome : Except String EmailAnalysisResult) :
    0 ≤ (analyzeEmailHybrid e aiEnabled claudeOutcome).1.cost := by
  by_cases h : (keywordResultOf e).confidence < KEYWORD_CONFIDENCE_THRESHOLD
  · simp [analyzeEmailHybrid, h]
  · cases aiEnabled with
    | false => simp [analyzeEmailHybrid, h]
    | true =>
      cases claudeOutcome with
      | ok c =>
        simpa [analyzeEmailHybrid, h] using calculateCost_nonneg c.tokens_input c.tokens_output
      | error m => simp [analyzeEmailHybrid, h]

/-- C3: the account's `ai_cost_total` never decreases across the only
statement that writes it, and a successful Claude classification with usage
`(i, o)` increases it by exactly `round6(i·0.25/10⁶ + o·1.25/10⁶)`. -/
theorem ai_cost_accounting (t : ℚ) (e : EmailRow) (aiEnabled : Bool)
    (claudeOutcome : Except String EmailAnalysisResult) :
    t ≤ accountCostAfterRow t (analyzeEmailHybrid e aiEnabled claudeOutcome).1
    ∧ ∀ c : EmailAnalysisResult, claudeOutcome = Except.ok c → aiEnabled = true →
        ¬(keywordResultOf e).confidence < KEYWORD_CONFIDENCE_THRESHOLD →
        accountCostAfterRow t (analyzeEmailHybrid e aiEnabled claudeOutcome).1
          = t + round6 ((c.tokens_input : ℚ) * ((25 / 100) / 1000000)
              + (c.tokens_output : ℚ) * ((125 / 100) / 1000000)) := by
  constructor
  · have hc := hybrid_cost_nonneg e aiEnabled claudeOutcome
    unfold accountCostAfterRow
    split
    · linarith
    · exact le_refl t
  · intro c hout hai hconf
    subst hout
    subst hai
    have hcost : calculateCost c.tokens_input c.tokens_output
        = round6 ((c.tokens_input : ℚ) * ((25 / 100) / 1000000)
            + (c.tokens_output : ℚ) * ((125 / 100) / 1000000)) := by
      unfold calculateCost
      congr 1
      ring
    have hres : (analyzeEmailHybrid e true (Except.ok c)).1.cost
        = calculateCost c.tokens_input c.tokens_output := by
      simp [analyzeEmailHybrid, hconf]
    unfold accountCostAfterRow
    rw [hres, hcost]
    have h0 : (0 : ℚ) ≤ round6 ((c.tokens_input : ℚ) * ((25 / 100) / 1000000)
        + (c.tokens_output : ℚ) * ((125 / 100) / 1000000)) := by
      rw [← hcost]
      exact calculateCost_nonneg _ _
    by_cases hpos : round6 ((c.tokens_input : ℚ) * ((25 / 100) / 1000000)
        + (c.tokens_output : ℚ) * ((125 / 100) / 1000000)) > 0
    · rw [if_pos hpos]
    · rw [if_neg hpos]
      have h1 : round6 ((c.tokens_input : ℚ) * ((25 / 100) / 1000000)
          + (c.tokens_output : ℚ) * ((125 / 100) / 1000000)) = 0 :=
        le_antisymm (not_lt.mp hpos) h0
      rw [h1, add_zero]

unseal Rat.add Rat.mul Rat.inv in
/-- Witness for C3: a concrete Claude success with usage (1000, 200) raises
a cost total of 5 by exactly 0.0005. -/
theorem ai_cost_accounting_witness :
    accountCostAfterRow 5 (analyzeEmailHybrid rowMidConfidence true (Except.ok claudeOkResult)).1
      = 5 + round6 ((1000 : ℚ) * ((25 / 100) / 1000000) + (200 : ℚ) * ((125 / 100) / 1000000)) := by
  exact (ai_cost_accounting 5 rowMidConfidence true (Except.ok claudeOkResult)).2
    claudeOkResult rfl rfl (by decide)

/-! ## C8 — Per-row failure budget -/

/-- C8: when classification of a row throws, the attempt counter used is the
stored `analysis_attempts` plus one; if it reaches 3 the row is marked
processed with `ai_provider = error`, `is_subscription = false`,
`confidence = 0` and a reasoning string carrying the attempt count and the
last error; below 3 only the incremented counter is stored and the row stays
unprocessed for the next batch. -/
theorem row_failure_budget (e : EmailRow) (errMsg : String)
    (hun : e.processedAt = false) :
    (3 ≤ e.analysis_attempts + 1 →
       (handleRowFailure e errMsg).processedAt = true
       ∧ (handleRowFailure e errMsg).ai_provider = some "error"
       ∧ (handleRowFailure e errMsg).is_subscription = false
       ∧ (handleRowFailure e errMsg).subscription_confidence = 0
       ∧ (handleRowFailure e errMsg).ai_reasoning
         = some ("Failed after " ++ toString (e.analysis_attempts + 1) ++ " attempts: " ++ errMsg))
    ∧ (e.analysis_attempts + 1 < 3 →
       (handleRowFailure e errMsg).processedAt = false
       ∧ (handleRowFailure e errMsg).analysis_attempts = e.analysis_attempts + 1) := by
  constructor
  · intro h
    simp [handleRowFailure, markEmailAsProcessed, h]
  · intro h
    have h2 : ¬3 ≤ e.analysis_attempts + 1 := Nat.not_le.mpr h
    simp [handleRowFailure, h2, hun]

/-- Witness for C8 at a row that has already failed twice. -/
theorem row_failure_budget_witness :
    (handleRowFailure rowTwoFailures "socket hang up").processedAt = true
    ∧ (handleRowFailure rowTwoFailures "socket hang up").ai_provider = some "error" := by
  have h := row_failure_budget rowTwoFailures "socket hang up" rfl
  exact ⟨(h.1 (by decide)).1, (h.1 (by decide)).2.1⟩

/-! ## C1 — Sync Runner resume decision -/

/-- C1: on an account whose stored resume state is live (`sync_status =
syncing`, non-empty `last_page_token`), a stored query hash differing from
the current fingerprint clears all resume fields and restarts from scratch
(the count phase runs again); an equal hash resumes from `last_page_token`
with the stored processed count and skips the count phase. -/
theorem sync_resume_decision_correct (st : SyncAccountState) (currentHash : String)
    (hsync : st.sync_status = "syncing") (htok : st.last_page_token ≠ "") :
    (st.query_hash ≠ currentHash →
       (syncResumeDecision st currentHash).isResuming = false
       ∧ (syncResumeDecision st currentHash).skipCounting = false
       ∧ (syncResumeDecision st currentHash).state.last_page_token = ""
       ∧ (syncResumeDecision st currentHash).state.last_processed_message_id = ""
       ∧ (syncResumeDecision st currentHash).state.processed_emails = 0
       ∧ (syncResumeDecision st currentHash).state.query_hash = currentHash)
    ∧ (st.query_hash = currentHash →
       (syncResumeDecision st currentHash).isResuming = true
       ∧ (syncResumeDecision st currentHash).startingPageToken = some st.last_page_token
       ∧ (syncResumeDecision st currentHash).startingProcessedCount = st.processed_emails
       ∧ (syncResumeDecision st currentHash).skipCounting = true) := by
  constructor
  · intro hne
    simp [syncResumeDecision, getResumeStatus, clearResumeData, initializeSyncState,
      hsync, htok, hne]
  · intro heq
    simp [syncResumeDecision, getResumeStatus, hsync, htok, heq]

/-- Witness for C1: a live mid-sync account whose stored hash equals the
current fingerprint resumes from its cursor. -/
theorem sync_resume_decision_witness :
    (syncResumeDecision liveSyncState "abc123deadbeef00").isResuming = true
    ∧ (syncResumeDecision liveSyncState "abc123deadbeef00").startingPageToken = some "tok42"
    ∧ (syncResumeDecision liveSyncState "abc123deadbeef00").startingProcessedCount = 120
    ∧ (syncResumeDecision liveSyncState "abc123deadbeef00").skipCounting = true := by
  exact (sync_resume_decision_correct liveSyncState "abc123deadbeef00" rfl (by decide)).2 rfl

/-! ## C4 — Subscription deduplication -/

/-- Inserting through the unique index preserves key distinctness. -/
theorem insertSubscription_pairwise (db : List SubscriptionRow) (row : SubscriptionRow)
    (hnd : db.Pairwise subsKeyDistinct) :
    (insertSubscription db row).1.Pairwise subsKeyDistinct := by
  unfold insertSubscription
  by_cases h : db.any fun s => sameSubsKey s row.user_id row.service_name row.amount
  · simpa [h] using hnd
  · rw [if_neg h]
    simp only [List.pairwise_append]
    refine ⟨hnd, List.pairwise_singleton _ _, ?_⟩
    intro a ha b hb
    rw [List.mem_singleton] at hb
    subst hb
    intro hk
    apply h
    rw [List.any_eq_true]
    refine ⟨a, ha, ?_⟩
    simp [sameSubsKey, hk.1, hk.2.1, hk.2.2]

/-- A conflicting insert is suppressed and leaves the table unchanged. -/
theorem insertSubscription_conflict (db : List SubscriptionRow) (row : SubscriptionRow)
    (h : ∃ s ∈ db, s.user_id = row.user_id ∧ s.service_name = row.service_name
      ∧ s.amount = row.amount) :
    insertSubscription db row = (db, none) := by
  unfold insertSubscription
  rw [if_pos]
  rw [List.any_eq_true]
  obtain ⟨s, hs, hk⟩ := h
  refine ⟨s, hs, ?_⟩
  simp [sameSubsKey, hk.1, hk.2.1, hk.2.2]

/-- C4: key distinctness of the subscription table is preserved by
`createSubscriptionFromEmail`, and an insert that conflicts on
`(user, service_name, amount)` returns no id (no error propagates), leaves
the table unchanged, and contributes nothing to `subscriptions_found`. -/
theorem subscription_dedup (db : List SubscriptionRow) (userId emailId : String)
    (ex : ExtractedData) (hnd : db.Pairwise subsKeyDistinct) :
    (createSubscriptionFromEmail db userId emailId ex).1.Pairwise subsKeyDistinct
    ∧ ∀ n a, ex.serviceName = some n → ex.amount = some a →
        (∃ s ∈ db, s.user_id = userId ∧ s.service_name = n ∧ s.amount = a) →
        (createSubscriptionFromEmail db userId emailId ex).2 = none
        ∧ (createSubscriptionFromEmail db userId emailId ex).1 = db
        ∧ subsFoundIncrement (createSubscriptionFromEmail db userId emailId ex).2 = 0 := by
  cases hsn : ex.serviceName with
  | none =>
    refine ⟨by simp [createSubscriptionFromEmail, hsn, hnd], ?_⟩
    intro n a h1 _ _
    exact absurd h1 (by simp)
  | some n0 =>
    cases ham : ex.amount with
    | none =>
      refine ⟨?_, ?_⟩
      · cases h0 : jsOrNullStr (some n0) <;>
          simp [createSubscriptionFromEmail, hsn, ham, hnd]
      · intro n a _ h2 _
        exact absurd h2 (by simp)
    | some a0 =>
      by_cases hz : n0 = "" ∨ a0 = 0
      · refine ⟨by simp [createSubscriptionFromEmail, hsn, ham, hz, hnd], ?_⟩
        intro n a h1 h2 _
        simp [createSubscriptionFromEmail, hsn, ham, hz, subsFoundIncrement]
      · refine ⟨?_, ?_⟩
        · simp only [createSubscriptionFromEmail, hsn, ham, hz, if_false]
          exact insertSubscription_pairwise db _ hnd
        · intro n a h1 h2 hconfl
          have hn : n0 = n := by injection h1
          have ha : a0 = a := by injection h2
          subst hn
          subst ha
          have hins : insertSubscription db
              { user_id := userId
                email_id := some emailId
                service_name := n0
                amount := a0
                currency := (jsOrNullStr ex.currency).getD "USD"
                billing_cycle := (jsOrNullStr ex.billingCycle).getD "monthly"
                next_billing_date := jsOrNullStr ex.nextBillingDate
                status := "active"
                confidence_score := 9 / 10
                user_verified := false } = (db, none) :=
            insertSubscription_conflict db _ (by simpa using hconfl)
          simp [createSubscriptionFromEmail, hsn, ham, hz, hins, subsFoundIncrement]

unseal Rat.add Rat.mul Rat.inv in
/-- Witness for C4: re-inserting the key of the only row of a one-row table
is suppressed. -/
theorem subscription_dedup_witness :
    (createSubscriptionFromEmail subsDbOne "u1" "e2" extractedConflicting).2 = none
    ∧ (createSubscriptionFromEmail subsDbOne "u1" "e2" extractedConflicting).1 = subsDbOne := by
  have h := (subscription_dedup subsDbOne "u1" "e2" extractedConflicting
      (List.pairwise_singleton _ _)).2 "Netflix" (1599 / 100) rfl rfl
      ⟨_, List.Mem.head _, rfl, rfl, rfl⟩
  exact ⟨h.1, h.2.1⟩

/-! ## C10 — Falsy-field coercion in LM response parsing -/

/-- C10: a validated LM answer whose `amount` is the number 0 or whose
`service_name` is the empty string has that field coerced to null by
`parseClaudeResponse`, and consequently the Process Runner creates no
Subscription from it even when `is_subscription` is true. -/
theorem falsy_field_coercion (p : ParsedClaude) (i o : Nat)
    (hv : validateAnalysisResult p = true) (hsub : p.is_subscription = true)
    (hz : p.amount = some 0 ∨ p.service_name = some "") :
    (p.amount = some 0 → (parseClaudeFields p i o).amount = none)
    ∧ (p.service_name = some "" → (parseClaudeFields p i o).service_name = none)
    ∧ ∀ db userId emailId,
        createSubscriptionFromEmail db userId emailId
          (extractedOfClaude (parseClaudeFields p i o)) = (db, none) := by
  refine ⟨?_, ?_, ?_⟩
  · intro h
    simp [parseClaudeFields, jsOrNullNum, h]
  · intro h
    simp [parseClaudeFields, jsOrNullStr, h]
  · intro db userId emailId
    rcases hz with h | h
    · cases hsn : jsOrNullStr p.service_name <;>
        simp [createSubscriptionFromEmail, extractedOfClaude, parseClaudeFields, hsn,
          jsOrNullNum, h]
    · have hs : jsOrNullStr p.service_name = none := by simp [jsOrNullStr, h]
      cases ham : jsOrNullNum p.amount <;>
        simp [createSubscriptionFromEmail, extractedOfClaude, parseClaudeFields, hs, ham]

unseal Rat.add Rat.mul Rat.inv in
/-- Witness for C10: a concrete zero-amount LM answer with
`is_subscription = true` yields no subscription row. -/
theorem falsy_field_coercion_witness :
    createSubscriptionFromEmail subsDbOne "u1" "e3"
      (extractedOfClaude (parseClaudeFields parsedZeroAmount 10 20)) = (subsDbOne, none) := by
  exact (falsy_field_coercion parsedZeroAmount 10 20 (by decide) rfl (Or.inl rfl)).2.2
    subsDbOne "u1" "e3"

/-! ## C5 — LM retry policy (code-bug exhibit) -/

/-- C5 (code-bug exhibit): the claim says a failure other than HTTP
429/500/503 is not retried and fails the call (matching the source comment
"For other errors or last attempt, throw"), but the catch block of
`callClaudeAPIWithRetries` only logs such failures, so the loop silently
proceeds to the next attempt: with a first-attempt timeout and a working
second attempt, the embedded code performs two API calls, sleeps never, and
returns the second attempt's success instead of failing. -/
theorem retry_nonretriable_is_retried :
    (callClaudeAPIWithRetries timeoutThenOk).result = Except.ok 0
    ∧ (callClaudeAPIWithRetries timeoutThenOk).apiCalls = 2
    ∧ (callClaudeAPIWithRetries timeoutThenOk).sleeps = [] := by
  exact ⟨rfl, rfl, rfl⟩

/-! ## C6 — Token-refresh failure classification (code-bug exhibit) -/

/-- C6 (code-bug exhibit): the refresh-grant failure thrown by
`refreshAccessToken` carries the message "Failed to refresh access token"
(its 401 lives only in the separate `statusCode` field), which contains none
of the substrings the Sync Runner's classifier looks for; the run is
therefore classified as an unknown error — resume fields preserved and a
generic message stored — instead of the authentication handling (clear
resume, "reconnect" message) that the claim states. -/
theorem refresh_failure_misclassified :
    classifySyncError refreshFailureMessage
      = { errorMessage := "Unexpected error occurred. Please retry or contact support."
          shouldPreserveResume := true
          clearsResume := false } := by
  rfl

end OPF
